import Mathlib

/-!
Verification of the pubsub value store (src/pubsub.go) against its
natural-language specification.

Shallow embedding conventions:
- Record values are byte sequences, modelled as `List Nat`.
- The external validator/selector collaborator is a pair of functions
  (`Validator.validate`, `Validator.select`); `validate` returns `none` on
  success and `some msg` on rejection, matching a Go `error` result.
- The backing datastore is a function from keys to `Except DsErr Bytes`;
  the dshelp binary-key encoding is injective, so entries are keyed by the
  key string itself.  `DsErr.notFound` is `ds.ErrNotFound`; `DsErr.fail`
  is any other backend error.
- Errors surfaced by the store are `StoreErr`: `notFound` is
  `routing.ErrNotFound`, `invalid` a validator rejection, `storage` a
  backend failure, `transport` a pubsub publish/subscribe failure.
- The store's mutable state (`StoreState`) carries the datastore, the
  subscription map `subs` (`some none` = bootstrapped placeholder, Go nil
  subscription; `some (some id)` = active subscription handle), the watch
  group map, the `mx` mutex hold flag, and audit lists recording which
  keys were bootstrapped, which message-consuming tasks were spawned and
  which pubsub subscription handles had Cancel called on them.
- Single-threaded executions of the exported operations are embedded as
  explicit state-passing functions returning `Except ExecErr _`; an
  `ExecErr` is a Go runtime fault (unlock of an unheld mutex, lock
  self-deadlock, method call on a nil subscription handle).
-/

namespace PubsubRouter

abbrev Bytes := List Nat

/-- External validator/selector collaborator (record.Validator):
`validate key bytes` returns `none` when the record is acceptable and
`some msg` when rejected; `select key records` returns the index of the
preferred record or an error. -/
structure Validator where
  validate : String → Bytes → Option String
  select : String → List Bytes → Except String Nat

/-- Errors reported by the backing datastore: the distinguished
missing-key error `ds.ErrNotFound`, or any other backend failure. -/
inductive DsErr where
  | notFound
  | fail (msg : String)
deriving DecidableEq

/-- The backing key/value storage, read view: per key either stored bytes
or a datastore error. -/
abbrev Datastore := String → Except DsErr Bytes

/-- Errors surfaced by the store to its callers: `routing.ErrNotFound`,
validator rejection, a backend storage failure passed through verbatim,
or a pubsub transport failure. -/
inductive StoreErr where
  | notFound
  | invalid (msg : String)
  | storage (msg : String)
  | transport (msg : String)
deriving DecidableEq

/-- getLocal (src/pubsub.go lines 155-170): read the datastore; remap
`ds.ErrNotFound` to `routing.ErrNotFound` and return any other datastore
error as itself; then validate the stored bytes, surfacing a validator
rejection as a distinct outcome. -/
def getLocal (V : Validator) (d : Datastore) (key : String) : Except StoreErr Bytes :=
  match d key with
  | .error .notFound => .error .notFound
  | .error (.fail m) => .error (.storage m)
  | .ok val =>
    match V.validate key val with
    | some m => .error (.invalid m)
    | none => .ok val

/-- isBetter (src/pubsub.go lines 89-107): reject invalid candidates;
if the cache read fails (no entry, now-invalid entry, or storage error)
the candidate always wins; a byte-identical candidate wins; otherwise the
candidate wins iff the selector prefers index 0 of [candidate, cached]
with no error. -/
def isBetter (V : Validator) (d : Datastore) (key : String) (val : Bytes) : Bool :=
  match V.validate key val with
  | some _ => false
  | none =>
    match getLocal V d key with
    | .error _ => true
    | .ok old =>
      if old = val then true
      else
        match V.select key [val, old] with
        | .ok i => i == 0
        | .error _ => false

/-- ds.Put as performed by handleSubscription (src/pubsub.go line 260):
overwrite the entry for the key. -/
def dsPut (d : Datastore) (k : String) (v : Bytes) : Datastore :=
  fun k2 => if k2 = k then .ok v else d k2

/-- One iteration of handleSubscription's loop body for a received
message (src/pubsub.go lines 259-265): if isBetter accepts, persist the
bytes and notify the watchers.  Returns the updated datastore and whether
watchers were notified. -/
def processMessage (V : Validator) (d : Datastore) (key : String) (data : Bytes) :
    Datastore × Bool :=
  if isBetter V d key data then (dsPut d key data, true) else (d, false)

/-- Validator fixture accepting everything and always preferring the
first record. -/
def trivialValidator : Validator :=
  { validate := fun _ _ => none
    select := fun _ _ => .ok 0 }

/-- Validator fixture rejecting empty records and always preferring the
first record. -/
def nonemptyValidator : Validator :=
  { validate := fun _ v => if v.length = 0 then some "empty record" else none
    select := fun _ _ => .ok 0 }

/-- Datastore fixture with no entries. -/
def emptyDs : Datastore := fun _ => .error .notFound

/-- Datastore fixture holding bytes [7] under key "k". -/
def ds7 : Datastore := fun k => if k = "k" then .ok [7] else .error .notFound

/-- Go runtime faults observable in a single-threaded execution:
unlocking a mutex that is not held (fatal in Go), locking a mutex the
same task already holds (self-deadlock), and calling Cancel on a nil
subscription handle (nil pointer dereference). -/
inductive ExecErr where
  | unlockOfUnlocked
  | lockWhileHeld
  | nilHandleCancel
deriving DecidableEq

/-- Per-key fan-out group (src/pubsub.go lines 25-30): the group-wide
closing signal and the set of registered listener channels (by id). -/
structure WatchGroup where
  closing : Bool
  listeners : List Nat

/-- State of a PubsubValueStore (src/pubsub.go lines 32-50) in a
single-threaded execution. `subs key = some none` is the Go nil-valued
map entry (bootstrapped, not subscribed); `some (some id)` an active
subscription handle. `boots` records bootstrapPubsub invocations,
`tasks` the spawned handleSubscription tasks, `cancelledSubs` the
subscription handles on which Cancel was invoked. -/
structure StoreState where
  ds : Datastore
  subs : String → Option (Option Nat)
  watching : String → Option WatchGroup
  mxHeld : Bool
  boots : List String
  tasks : List Nat
  cancelledSubs : List Nat
  validator : Validator

/-- sync.Mutex.Lock: blocks forever if this task already holds it. -/
def mxLock (s : StoreState) : Except ExecErr StoreState :=
  if s.mxHeld then .error .lockWhileHeld else .ok { s with mxHeld := true }

/-- sync.Mutex.Unlock: fatal runtime error if the mutex is not held. -/
def mxUnlock (s : StoreState) : Except ExecErr StoreState :=
  if s.mxHeld then .ok { s with mxHeld := false } else .error .unlockOfUnlocked

/-- Map update for function-represented maps. -/
def setKey {α : Type} (f : String → Option α) (k : String) (v : Option α) :
    String → Option α :=
  fun k2 => if k2 = k then v else f k2

/-- NewPubsubValueStore (src/pubsub.go lines 55-69): always creates a
fresh, empty in-memory datastore (MutexWrap of NewMapDatastore) and empty
subscription and watch maps; the host/content-routing/pubsub arguments
carry no store state, so only the validator enters the state. -/
def NewPubsubValueStore (V : Validator) : StoreState :=
  { ds := fun _ => .error .notFound
    subs := fun _ => none
    watching := fun _ => none
    mxHeld := false
    boots := []
    tasks := []
    cancelledSubs := []
    validator := V }

/-- The recheck-and-install critical section of Subscribe (src/pubsub.go
lines 133-152), entered with the mutex held and a freshly created pubsub
subscription `subId`: if another caller installed a subscription in the
meantime, cancel our own handle (and return nil, success); otherwise
install the handle, spawn the handleSubscription task, and trigger
bootstrap when the key had never been touched.  Both branches of the
source return nil. -/
def subscribeRecheck (subId : Nat) (key : String) (s : StoreState) : StoreState :=
  match s.subs key with
  | some (some _) => { s with cancelledSubs := s.cancelledSubs ++ [subId] }
  | some none =>
    { s with subs := setKey s.subs key (some (some subId))
             tasks := s.tasks ++ [subId] }
  | none =>
    { s with subs := setKey s.subs key (some (some subId))
             tasks := s.tasks ++ [subId]
             boots := s.boots ++ [key] }

/-- Subscribe (src/pubsub.go lines 109-153) with the outcome of the
pubsub collaborator's Subscribe call passed in as `psres`.  Returns the
updated state and the Go return value (`none` = nil error).  Note line
129 of the source: on a transport error it calls p.mx.Unlock even though
the mutex was already released at line 113. -/
def subscribeImpl (psres : Except String Nat) (key : String) (s : StoreState) :
    Except ExecErr (StoreState × Option StoreErr) :=
  match mxLock s with
  | .error e => .error e
  | .ok s1 =>
    let sub := (s1.subs key).getD none
    match mxUnlock s1 with
    | .error e => .error e
    | .ok s2 =>
      if sub.isSome then .ok (s2, none)
      else
        -- RegisterTopicValidator installs the isBetter predicate with the
        -- transport; it does not change the store state.
        match psres with
        | .error e =>
          match mxUnlock s2 with
          | .error e2 => .error e2
          | .ok s3 => .ok (s3, some (.transport e))
        | .ok subId =>
          match mxLock s2 with
          | .error e => .error e
          | .ok s3 =>
            match mxUnlock (subscribeRecheck subId key s3) with
            | .error e => .error e
            | .ok s4 => .ok (s4, none)

/-- PutValue (src/pubsub.go lines 72-87) with the outcome of ps.Publish
passed in as `pubres` (`none` = nil error): if the key has never been
touched, install the nil placeholder and trigger bootstrap; then publish,
returning the publish outcome. -/
def putValueImpl (pubres : Option String) (key : String) (value : Bytes) (s : StoreState) :
    Except ExecErr (StoreState × Option StoreErr) :=
  match mxLock s with
  | .error e => .error e
  | .ok s1 =>
    if (s1.subs key).isSome then
      match mxUnlock s1 with
      | .error e => .error e
      | .ok s2 => .ok (s2, pubres.map .transport)
    else
      match mxUnlock { s1 with subs := setKey s1.subs key (some none) } with
      | .error e => .error e
      | .ok s2 => .ok ({ s2 with boots := s2.boots ++ [key] }, pubres.map .transport)

/-- Watch-group teardown inside Cancel (src/pubsub.go lines 237-242):
close the group's closing channel (which makes every listener's relay
close its output channel) and remove the group. -/
def closeWatch (key : String) (s : StoreState) : StoreState :=
  match s.watching key with
  | some _ => { s with watching := setKey s.watching key none }
  | none => s

/-- Cancel (src/pubsub.go lines 227-245): on an entry with a real handle,
cancel it, delete the entry, tear down the watch group and return true;
on an absent entry, tear down the watch group and return false.  When the
entry is the nil placeholder (bootstrapped only), the source calls
sub.Cancel() on the nil subscription handle: a nil pointer dereference. -/
def cancelImpl (key : String) (s : StoreState) : Except ExecErr (StoreState × Bool) :=
  match mxLock s with
  | .error e => .error e
  | .ok s1 =>
    match s1.subs key with
    | some none => .error .nilHandleCancel
    | some (some subId) =>
      let s2 := { s1 with subs := setKey s1.subs key none
                          cancelledSubs := s1.cancelledSubs ++ [subId] }
      match mxUnlock (closeWatch key s2) with
      | .error e => .error e
      | .ok s3 => .ok (s3, true)
    | none =>
      match mxUnlock (closeWatch key s1) with
      | .error e => .error e
      | .ok s3 => .ok (s3, false)

/-- GetValue (src/pubsub.go lines 172-178): Subscribe, propagating its
error; then read the local cache, surfacing its outcome verbatim. -/
def GetValueImpl (psres : Except String Nat) (key : String) (s : StoreState) :
    Except ExecErr (StoreState × Except StoreErr Bytes) :=
  match subscribeImpl psres key s with
  | .error e => .error e
  | .ok (s2, some e) => .ok (s2, .error e)
  | .ok (s2, none) => .ok (s2, getLocal s2.validator s2.ds key)

/-- N concurrent first-time subscribers that have all passed the initial
check (seeing no active subscription) and created their own pubsub
subscription then execute the recheck-and-install critical section one
after another in some order, because the section runs under the store
mutex; `ids` is that serialization order. -/
def runRechecks (key : String) (s : StoreState) (ids : List Nat) : StoreState :=
  ids.foldl (fun st i => subscribeRecheck i key st) s

/-- One operation on a fixed key: a PutValue with the given bytes and
publish outcome, or a Subscribe whose pubsub Subscribe call succeeds with
the given handle. -/
inductive Op where
  | put (v : Bytes) (pubres : Option String)
  | sub (id : Nat)

/-- Sequential execution of a list of PutValue/Subscribe calls on one
key (no intervening Cancel). -/
def runOps (key : String) : StoreState → List Op → Except ExecErr StoreState
  | s, [] => .ok s
  | s, Op.put v r :: rest =>
    match putValueImpl r key v s with
    | .error e => .error e
    | .ok (s2, _) => runOps key s2 rest
  | s, Op.sub n :: rest =>
    match subscribeImpl (.ok n) key s with
    | .error e => .error e
    | .ok (s2, _) => runOps key s2 rest

/-- One listener's delivery attempt inside notifyWatchers (src/pubsub.go
lines 278-285): a Go select over sending on the listener's channel, the
group-closing signal and the listener's context.  The listeners map is
keyed by the listener's out channel itself (watchGroup.add, line 351), so
this send targets the same capacity-1 buffered channel the caller reads;
`slot` is that buffer.  `none` means no select case is ready: the
producer blocks. -/
def notifySend (slot : Option Bytes) (closing ctxDone : Bool) (data : Bytes) :
    Option (Option Bytes) :=
  match slot with
  | none => some (some data)
  | some old => if closing || ctxDone then some (some old) else none

/-- The coalescing step of the relay task in watchGroup.add (src/pubsub.go
lines 371-376): put the value into the buffer, or drain the pending value
and put the newer one.  Its input channel (the proxy created at line 347)
is never written by any code path in the source. -/
def relaySwap (slot : Option Bytes) (val : Bytes) : Option Bytes :=
  match slot with
  | none => some val
  | some _ => some val

/-- Publishing a sequence of accepted values through notifyWatchers to a
single live listener that performs no reads: each delivery runs
notifySend; a blocked delivery stops the producer (handleSubscription is
stuck in the select), so later values are never attempted.  Returns the
listener's pending buffer and whether the producer blocked. -/
def publishSeq : Option Bytes → List Bytes → Option Bytes × Bool
  | slot, [] => (slot, false)
  | slot, d :: rest =>
    match notifySend slot false false d with
    | some slot2 => publishSeq slot2 rest
    | none => (slot, true)

/-- First value a listener reads after one post-join delivery attempt by
the producer: if the delivery completed, the updated buffer is read,
otherwise the producer is still blocked and the current buffer is read. -/
def firstObserved (slot : Option Bytes) (d : Bytes) : Option Bytes :=
  match notifySend slot false false d with
  | some slot2 => slot2
  | none => slot

/-- The seeding step of SearchValue (src/pubsub.go lines 198-202),
executed while the watch group is write-locked: create the capacity-1
output channel and perform a buffered send of the cache value when the
cache read succeeds. -/
def searchValueSeed (V : Validator) (d : Datastore) (key : String) : Option Bytes :=
  match getLocal V d key with
  | .ok lv => some lv
  | .error _ => none

/-- Datastore fixture whose entry for "k" reports a backend failure. -/
def dsBroken : Datastore :=
  fun k => if k = "k" then .error (.fail "disk failure") else .error .notFound

/-- Datastore fixture holding an empty record under "k" (rejected by
nonemptyValidator). -/
def dsEmptyRec : Datastore := fun k => if k = "k" then .ok [] else .error .notFound

/-- C1: isBetter returns false when the validator rejects the candidate;
returns true when the candidate is valid and the cache holds no entry or
the cached bytes now fail validation; returns true when the candidate is
byte-identical to the (valid) cached value; and otherwise returns true
exactly when the selector designates index 0 of [candidate, cached] with
no error. -/
theorem isBetter_cases (V : Validator) (d : Datastore) (key : String) (val : Bytes) :
    (V.validate key val ≠ none → isBetter V d key val = false) ∧
    (V.validate key val = none →
      (d key = .error .notFound ∨ ∃ old m, d key = .ok old ∧ V.validate key old = some m) →
      isBetter V d key val = true) ∧
    (∀ old, V.validate key val = none → d key = .ok old → V.validate key old = none →
      old = val → isBetter V d key val = true) ∧
    (∀ old, V.validate key val = none → d key = .ok old → V.validate key old = none →
      old ≠ val → (isBetter V d key val = true ↔ V.select key [val, old] = .ok 0)) := by
  refine ⟨?_, ?_, ?_, ?_⟩
  · intro hv
    cases hval : V.validate key val with
    | none => exact absurd hval hv
    | some m => simp [isBetter, hval]
  · rintro hv (hnf | ⟨old, m, hok, hbad⟩)
    · simp [isBetter, hv, getLocal, hnf]
    · simp [isBetter, hv, getLocal, hok, hbad]
  · intro old hv hok hold heq
    simp [isBetter, hv, getLocal, hok, hold, heq]
  · intro old hv hok hold hne
    simp only [isBetter, hv, getLocal, hok, hold]
    rw [if_neg hne]
    cases hs : V.select key [val, old] with
    | ok i =>
      constructor
      · intro h2
        have h3 : i = 0 := by simpa using h2
        rw [h3]
      · intro h2
        have h3 : i = 0 := by simpa using h2
        simp [h3]
    | error e => simp [hs]

/-- Witness for isBetter_cases: each case discharged at concrete inputs. -/
theorem isBetter_cases_witness :
    isBetter nonemptyValidator emptyDs "k" [] = false ∧
    isBetter trivialValidator emptyDs "k" [1] = true ∧
    isBetter trivialValidator ds7 "k" [7] = true ∧
    (isBetter trivialValidator ds7 "k" [8] = true ↔
      trivialValidator.select "k" [[8], [7]] = .ok 0) := by
  refine ⟨?_, ?_, ?_, ?_⟩
  · exact (isBetter_cases nonemptyValidator emptyDs "k" []).1 (by simp [nonemptyValidator])
  · exact (isBetter_cases trivialValidator emptyDs "k" [1]).2.1 rfl (Or.inl rfl)
  · exact (isBetter_cases trivialValidator ds7 "k" [7]).2.2.1 [7] rfl rfl rfl rfl
  · exact (isBetter_cases trivialValidator ds7 "k" [8]).2.2.2 [7] rfl rfl rfl (by decide)

@[simp] theorem setKey_same {α : Type} (f : String → Option α) (k : String) (v : Option α) :
    setKey f k v k = v := by
  simp [setKey]

theorem setKey_other {α : Type} (f : String → Option α) (k : String) (v : Option α)
    (k2 : String) (h : k2 ≠ k) : setKey f k v k2 = f k2 := by
  simp [setKey, h]

theorem subscribeImpl_early (psres : Except String Nat) (key : String) (s : StoreState)
    (h0 : s.mxHeld = false) (x : Nat) (h : s.subs key = some (some x)) :
    subscribeImpl psres key s = .ok ({ s with mxHeld := false }, none) := by
  simp [subscribeImpl, mxLock, mxUnlock, h0, h]

theorem subscribeImpl_placeholder (n : Nat) (key : String) (s : StoreState)
    (h0 : s.mxHeld = false) (h : s.subs key = some none) :
    subscribeImpl (.ok n) key s =
      .ok ({ s with mxHeld := false
                    subs := setKey s.subs key (some (some n))
                    tasks := s.tasks ++ [n] }, none) := by
  simp [subscribeImpl, subscribeRecheck, mxLock, mxUnlock, h0, h]

theorem subscribeImpl_fresh (n : Nat) (key : String) (s : StoreState)
    (h0 : s.mxHeld = false) (h : s.subs key = none) :
    subscribeImpl (.ok n) key s =
      .ok ({ s with mxHeld := false
                    subs := setKey s.subs key (some (some n))
                    tasks := s.tasks ++ [n]
                    boots := s.boots ++ [key] }, none) := by
  simp [subscribeImpl, subscribeRecheck, mxLock, mxUnlock, h0, h]

theorem putValueImpl_present (r : Option String) (key : String) (v : Bytes) (s : StoreState)
    (h0 : s.mxHeld = false) (h1 : (s.subs key).isSome = true) :
    putValueImpl r key v s = .ok ({ s with mxHeld := false }, r.map .transport) := by
  simp [putValueImpl, mxLock, mxUnlock, h0, h1]

theorem putValueImpl_absent (r : Option String) (key : String) (v : Bytes) (s : StoreState)
    (h0 : s.mxHeld = false) (h : s.subs key = none) :
    putValueImpl r key v s =
      .ok ({ s with mxHeld := false
                    subs := setKey s.subs key (some none)
                    boots := s.boots ++ [key] }, r.map .transport) := by
  simp [putValueImpl, mxLock, mxUnlock, h0, h]

/-- C3: when the pubsub collaborator's Subscribe call fails, the store's
Subscribe does not terminate normally with that error: line 129 of the
source calls p.mx.Unlock on a mutex that was already released at line
113, which is a fatal Go runtime error (unlock of unlocked mutex). -/
theorem subscribe_transport_error_crashes (e : String) (V : Validator) (key : String) :
    subscribeImpl (.error e) key (NewPubsubValueStore V) = .error ExecErr.unlockOfUnlocked := by
  simp [subscribeImpl, mxLock, mxUnlock, NewPubsubValueStore]

/-- C4: after only PutValue("k", v) the key's entry is the nil
placeholder (bootstrapping state); Cancel("k") then finds the entry and
calls Cancel on the nil subscription handle, a nil pointer dereference,
instead of completing normally with false. -/
theorem cancel_after_put_nil_handle :
    ∃ s1, putValueImpl none "k" [1] (NewPubsubValueStore trivialValidator) = .ok (s1, none) ∧
      cancelImpl "k" s1 = .error ExecErr.nilHandleCancel := by
  refine ⟨_, putValueImpl_absent none "k" [1] (NewPubsubValueStore trivialValidator) rfl rfl, ?_⟩
  simp [cancelImpl, mxLock, NewPubsubValueStore]

/-- C10: the constructor builds a store whose local cache is fresh and
empty whatever the validator argument is, so GetValue on a key with no
prior publish or accepted message returns NotFound once the implicit
Subscribe succeeds. -/
theorem fresh_store_getvalue_notfound (V : Validator) (key : String) (n : Nat) :
    (∀ k2, (NewPubsubValueStore V).ds k2 = .error DsErr.notFound) ∧
    ∃ s2, GetValueImpl (.ok n) key (NewPubsubValueStore V) =
      .ok (s2, .error StoreErr.notFound) :=
  ⟨fun _ => rfl, ⟨_, rfl⟩⟩

theorem runRechecks_after_install (key : String) (x : Nat) :
    ∀ (ids : List Nat) (s : StoreState), s.subs key = some (some x) →
      (runRechecks key s ids).subs key = some (some x) ∧
      (runRechecks key s ids).tasks = s.tasks ∧
      (runRechecks key s ids).cancelledSubs = s.cancelledSubs ++ ids
  | [], s, h => ⟨h, rfl, by simp [runRechecks]⟩
  | i :: t, s, h => by
    have hstep : subscribeRecheck i key s =
        { s with cancelledSubs := s.cancelledSubs ++ [i] } := by
      simp [subscribeRecheck, h]
    have ih := runRechecks_after_install key x t (subscribeRecheck i key s)
      (by rw [hstep]; exact h)
    have hrun : runRechecks key s (i :: t) = runRechecks key (subscribeRecheck i key s) t := rfl
    refine ⟨by rw [hrun]; exact ih.1, by rw [hrun, ih.2.1, hstep], ?_⟩
    rw [hrun, ih.2.2, hstep]
    simp

/-- C5: serialized rechecks of N concurrent first-time subscribers
(arriving in order `ids`, none of whom saw an installed subscription at
the initial check, i.e. the entry is absent or still the nil
placeholder): the first caller installs its subscription and spawns the
single message-consuming task; every later caller cancels its own
just-created pubsub subscription.  Both source branches return nil, so
every caller returns success. -/
theorem concurrent_first_subscribers_one_task (key : String) (s : StoreState)
    (ids : List Nat) (i : Nat) (t : List Nat) (hids : ids = i :: t)
    (hnone : (s.subs key).getD none = none)
    (htasks : s.tasks = []) (hcxl : s.cancelledSubs = []) :
    (runRechecks key s ids).subs key = some (some i) ∧
    (runRechecks key s ids).tasks = [i] ∧
    (runRechecks key s ids).cancelledSubs = t := by
  subst hids
  have hstep : subscribeRecheck i key s =
      { s with subs := setKey s.subs key (some (some i)), tasks := s.tasks ++ [i] } ∨
      subscribeRecheck i key s =
      { s with subs := setKey s.subs key (some (some i)), tasks := s.tasks ++ [i],
               boots := s.boots ++ [key] } := by
    cases h : s.subs key with
    | none => exact Or.inr (by simp [subscribeRecheck, h])
    | some v =>
      cases v with
      | none => exact Or.inl (by simp [subscribeRecheck, h])
      | some x => rw [h] at hnone; simp at hnone
  have hrun : runRechecks key s (i :: t) = runRechecks key (subscribeRecheck i key s) t := rfl
  cases hstep with
  | inl h1 =>
    have ih := runRechecks_after_install key i t (subscribeRecheck i key s)
      (by rw [h1]; exact setKey_same s.subs key (some (some i)))
    refine ⟨by rw [hrun]; exact ih.1, ?_, ?_⟩
    · rw [hrun, ih.2.1, h1]
      simp [htasks]
    · rw [hrun, ih.2.2, h1]
      simp [hcxl]
  | inr h1 =>
    have ih := runRechecks_after_install key i t (subscribeRecheck i key s)
      (by rw [h1]; exact setKey_same s.subs key (some (some i)))
    refine ⟨by rw [hrun]; exact ih.1, ?_, ?_⟩
    · rw [hrun, ih.2.1, h1]
      simp [htasks]
    · rw [hrun, ih.2.2, h1]
      simp [hcxl]

/-- Witness for concurrent_first_subscribers_one_task: three concurrent
first subscribers serialized as [5, 6, 7] on a fresh store. -/
theorem concurrent_first_subscribers_one_task_witness :
    (runRechecks "k" (NewPubsubValueStore trivialValidator) [5, 6, 7]).subs "k" =
      some (some 5) ∧
    (runRechecks "k" (NewPubsubValueStore trivialValidator) [5, 6, 7]).tasks = [5] ∧
    (runRechecks "k" (NewPubsubValueStore trivialValidator) [5, 6, 7]).cancelledSubs =
      [6, 7] :=
  concurrent_first_subscribers_one_task "k" (NewPubsubValueStore trivialValidator)
    [5, 6, 7] 5 [6, 7] rfl rfl rfl rfl

theorem runOps_no_more_boots (key : String) :
    ∀ (ops : List Op) (s : StoreState), s.mxHeld = false → (s.subs key).isSome = true →
      ∃ s2, runOps key s ops = .ok s2 ∧ s2.boots = s.boots ∧
        s2.mxHeld = false ∧ (s2.subs key).isSome = true
  | [], s, h0, h1 => ⟨s, rfl, rfl, h0, h1⟩
  | Op.put v r :: rest, s, h0, h1 => by
    have hstep := putValueImpl_present r key v s h0 h1
    obtain ⟨s2, hrun, hb, hm, hs⟩ :=
      runOps_no_more_boots key rest { s with mxHeld := false } rfl h1
    exact ⟨s2, by rw [runOps, hstep]; exact hrun, hb, hm, hs⟩
  | Op.sub n :: rest, s, h0, h1 => by
    cases h : s.subs key with
    | none => rw [h] at h1; simp at h1
    | some v =>
      cases v with
      | some x =>
        have hstep := subscribeImpl_early (.ok n) key s h0 x h
        obtain ⟨s2, hrun, hb, hm, hs⟩ :=
          runOps_no_more_boots key rest { s with mxHeld := false } rfl h1
        exact ⟨s2, by rw [runOps, hstep]; exact hrun, hb, hm, hs⟩
      | none =>
        have hstep := subscribeImpl_placeholder n key s h0 h
        obtain ⟨s2, hrun, hb, hm, hs⟩ :=
          runOps_no_more_boots key rest
            { s with mxHeld := false
                     subs := setKey s.subs key (some (some n))
                     tasks := s.tasks ++ [n] } rfl (by simp)
        exact ⟨s2, by rw [runOps, hstep]; exact hrun, hb, hm, hs⟩

/-- C6: over any nonempty sequence of PutValue and Subscribe calls on a
key of a fresh store (no intervening Cancel, pubsub Subscribe calls
succeeding), bootstrapPubsub is invoked exactly once for that key, by the
first operation; later operations never invoke it again. -/
theorem bootstrap_once_per_key (V : Validator) (key : String)
    (ops : List Op) (op : Op) (rest : List Op) (hops : ops = op :: rest) :
    ∃ s2, runOps key (NewPubsubValueStore V) ops = .ok s2 ∧ s2.boots = [key] := by
  subst hops
  cases op with
  | put v r =>
    have hstep := putValueImpl_absent r key v (NewPubsubValueStore V) rfl rfl
    obtain ⟨s2, hrun, hb, hm, hs⟩ :=
      runOps_no_more_boots key rest
        { NewPubsubValueStore V with
            mxHeld := false
            subs := setKey (NewPubsubValueStore V).subs key (some none)
            boots := (NewPubsubValueStore V).boots ++ [key] } rfl (by simp)
    exact ⟨s2, by rw [runOps, hstep]; exact hrun, by rw [hb]; rfl⟩
  | sub n =>
    have hstep := subscribeImpl_fresh n key (NewPubsubValueStore V) rfl rfl
    obtain ⟨s2, hrun, hb, hm, hs⟩ :=
      runOps_no_more_boots key rest
        { NewPubsubValueStore V with
            mxHeld := false
            subs := setKey (NewPubsubValueStore V).subs key (some (some n))
            tasks := (NewPubsubValueStore V).tasks ++ [n]
            boots := (NewPubsubValueStore V).boots ++ [key] } rfl (by simp)
    exact ⟨s2, by rw [runOps, hstep]; exact hrun, by rw [hb]; rfl⟩

/-- Witness for bootstrap_once_per_key: PutValue then Subscribe then
another PutValue on a fresh store bootstraps the key exactly once. -/
theorem bootstrap_once_per_key_witness :
    ∃ s2, runOps "k" (NewPubsubValueStore trivialValidator)
        [Op.put [1] none, Op.sub 0, Op.put [2] none] = .ok s2 ∧ s2.boots = ["k"] :=
  bootstrap_once_per_key trivialValidator "k"
    [Op.put [1] none, Op.sub 0, Op.put [2] none]
    (Op.put [1] none) [Op.sub 0, Op.put [2] none] rfl

/-- C2: evaluating the delivery path of the code on publishes v1, v2, v3
with no reads: the producer blocks at v2 (the capacity-1 buffer still
holds v1 and notifyWatchers sends directly on it), so the listener's
pending value remains v1 — it is not replaced by the newer value.  The
latest-value-wins swap does exist in the source (relaySwap) but its input
channel is never fed. -/
theorem notify_blocks_no_coalescing :
    publishSeq none [[1], [2], [3]] = (some [1], true) ∧
    relaySwap (some [1]) [2] = some [2] := by
  decide

theorem getLocal_depends_on_validate (V W : Validator) (hvw : V.validate = W.validate)
    (d : Datastore) (key : String) : getLocal V d key = getLocal W d key := by
  simp [getLocal, hvw]

theorem GetValueImpl_of_subscribe (psres : Except String Nat) (key : String)
    (s s2 : StoreState) (h : subscribeImpl psres key s = .ok (s2, none))
    (hv : s2.validator = s.validator) (hd : s2.ds = s.ds) :
    GetValueImpl psres key s = .ok (s2, getLocal s.validator s.ds key) := by
  simp only [GetValueImpl, h, hv, hd]

theorem GetValueImpl_ok (n : Nat) (key : String) (s : StoreState) (h0 : s.mxHeld = false) :
    ∃ s2, GetValueImpl (.ok n) key s = .ok (s2, getLocal s.validator s.ds key) := by
  cases h : s.subs key with
  | none =>
    exact ⟨_, GetValueImpl_of_subscribe _ _ _ _ (subscribeImpl_fresh n key s h0 h) rfl rfl⟩
  | some v =>
    cases v with
    | none =>
      exact ⟨_, GetValueImpl_of_subscribe _ _ _ _ (subscribeImpl_placeholder n key s h0 h) rfl rfl⟩
    | some x =>
      exact ⟨_, GetValueImpl_of_subscribe _ _ _ _ (subscribeImpl_early (.ok n) key s h0 x h) rfl rfl⟩

/-- C7: getLocal returns NotFound exactly when the backend reports the
key missing; returns the validator's rejection when stored bytes fail
validation; returns any other backend error as a storage error verbatim;
the categories never cross; and GetValue surfaces the getLocal outcome
verbatim once the implicit Subscribe succeeds. -/
theorem getLocal_error_taxonomy (V : Validator) (d : Datastore) (key : String) :
    (getLocal V d key = .error .notFound ↔ d key = .error .notFound) ∧
    (∀ m, getLocal V d key = .error (.storage m) ↔ d key = .error (.fail m)) ∧
    (∀ m, getLocal V d key = .error (.invalid m) ↔
      ∃ v, d key = .ok v ∧ V.validate key v = some m) ∧
    (∀ n (s : StoreState), s.mxHeld = false → s.validator = V → s.ds = d →
      ∃ s2, GetValueImpl (.ok n) key s = .ok (s2, getLocal V d key)) := by
  refine ⟨?_, ?_, ?_, ?_⟩
  · cases hd : d key with
    | error e => cases e <;> simp [getLocal, hd]
    | ok w =>
      cases hw : V.validate key w <;> simp [getLocal, hd, hw]
  · intro m
    cases hd : d key with
    | error e => cases e <;> simp [getLocal, hd]
    | ok w =>
      cases hw : V.validate key w <;> simp [getLocal, hd, hw]
  · intro m
    cases hd : d key with
    | error e => cases e <;> simp [getLocal, hd]
    | ok w =>
      cases hw : V.validate key w <;> simp [getLocal, hd, hw]
  · intro n s h0 hv hd
    obtain ⟨s2, h2⟩ := GetValueImpl_ok n key s h0
    exact ⟨s2, by rw [h2, hv, hd]⟩

/-- Witness for getLocal_error_taxonomy at concrete stores. -/
theorem getLocal_error_taxonomy_witness :
    (getLocal nonemptyValidator emptyDs "k" = .error .notFound ↔
      emptyDs "k" = .error .notFound) ∧
    (getLocal nonemptyValidator dsBroken "k" = .error (.storage "disk failure") ↔
      dsBroken "k" = .error (.fail "disk failure")) ∧
    (getLocal nonemptyValidator dsEmptyRec "k" = .error (.invalid "empty record") ↔
      ∃ v, dsEmptyRec "k" = .ok v ∧ nonemptyValidator.validate "k" v = some "empty record") ∧
    (∃ s2, GetValueImpl (.ok 3) "k" (NewPubsubValueStore trivialValidator) =
      .ok (s2, getLocal trivialValidator emptyDs "k")) :=
  ⟨(getLocal_error_taxonomy nonemptyValidator emptyDs "k").1,
   (getLocal_error_taxonomy nonemptyValidator dsBroken "k").2.1 "disk failure",
   (getLocal_error_taxonomy nonemptyValidator dsEmptyRec "k").2.2.1 "empty record",
   (getLocal_error_taxonomy trivialValidator emptyDs "k").2.2.2 3
     (NewPubsubValueStore trivialValidator) rfl rfl rfl⟩

/-- C8: a listener joining SearchValue while a valid cache entry exists
has that entry as the seed of its capacity-1 channel, and the first value
it reads is that entry even if the producer attempts a delivery after the
join: the post-join send finds the buffer full and is ordered after the
first read. -/
theorem search_value_seed_first (V : Validator) (d : Datastore) (key : String) (v : Bytes)
    (h : getLocal V d key = .ok v) :
    searchValueSeed V d key = some v ∧
    (∀ dNew, firstObserved (searchValueSeed V d key) dNew = some v) := by
  have h1 : searchValueSeed V d key = some v := by simp [searchValueSeed, h]
  refine ⟨h1, fun dNew => ?_⟩
  rw [h1]
  simp [firstObserved, notifySend]

/-- Witness for search_value_seed_first with a cached value [7] and a
later published value [9]. -/
theorem search_value_seed_first_witness :
    searchValueSeed trivialValidator ds7 "k" = some [7] ∧
    firstObserved (searchValueSeed trivialValidator ds7 "k") [9] = some [7] :=
  ⟨(search_value_seed_first trivialValidator ds7 "k" [7] rfl).1,
   (search_value_seed_first trivialValidator ds7 "k" [7] rfl).2 [9]⟩

/-- C9: when the cached value for a key passes validation, re-delivering
the byte-identical value is accepted by isBetter regardless of the
selector (it is never consulted), produces no validator error, and
processing the re-delivered message leaves the datastore unchanged at
every key. -/
theorem redeliver_cached_idempotent (V : Validator) (d : Datastore) (key : String)
    (v : Bytes) (h : getLocal V d key = .ok v) :
    V.validate key v = none ∧
    (∀ sel, isBetter { validate := V.validate, select := sel } d key v = true) ∧
    (∀ k2, (processMessage V d key v).1 k2 = d k2) := by
  have hinv : d key = .ok v ∧ V.validate key v = none := by
    cases hd : d key with
    | error e => cases e <;> simp [getLocal, hd] at h
    | ok w =>
      cases hw : V.validate key w with
      | some m => simp [getLocal, hd, hw] at h
      | none =>
        have hwv : w = v := by simpa [getLocal, hd, hw] using h
        subst hwv
        exact ⟨rfl, hw⟩
  refine ⟨hinv.2, ?_, ?_⟩
  · intro sel
    have hg : getLocal { validate := V.validate, select := sel } d key = .ok v := by
      rw [getLocal_depends_on_validate { validate := V.validate, select := sel } V rfl]
      exact h
    simp [isBetter, hinv.2, hg]
  · intro k2
    have hb : isBetter V d key v = true := by simp [isBetter, hinv.2, h]
    simp only [processMessage, hb, if_true]
    by_cases hk : k2 = key
    · subst hk
      simp [dsPut, hinv.1]
    · simp [dsPut, hk]

/-- Witness for redeliver_cached_idempotent: cached [7] under "k",
re-delivered with a selector that errors on every call (showing it is
not consulted). -/
theorem redeliver_cached_idempotent_witness :
    trivialValidator.validate "k" [7] = none ∧
    isBetter { validate := trivialValidator.validate
               select := fun _ _ => .error "selector consulted" } ds7 "k" [7] = true ∧
    (processMessage trivialValidator ds7 "k" [7]).1 "other" = ds7 "other" :=
  ⟨(redeliver_cached_idempotent trivialValidator ds7 "k" [7] rfl).1,
   (redeliver_cached_idempotent trivialValidator ds7 "k" [7] rfl).2.1
     (fun _ _ => .error "selector consulted"),
   (redeliver_cached_idempotent trivialValidator ds7 "k" [7] rfl).2.2 "other"⟩

end PubsubRouter
